import Mathlib

/-!
Verification development for the ailabber two-tier Slurm task broker.

The Python source is shallowly embedded: strings are modelled as `String`
(with character-level helpers on `List Char` mirroring Python string
methods), database rows as structures, `datetime.now()` as an explicit
`Nat` tick passed to each operation, and subprocess invocations as values
of `ProcOutcome` supplied by the environment.
-/

namespace Ailabber

/-! ## Python string primitives (character-list level) -/

/-- Python `sub in s`: `p` occurs as a contiguous substring of `l`. -/
def containsSub (p : List Char) : List Char → Bool
  | [] => p.isEmpty
  | c :: cs => if (c :: cs).take p.length = p then true else containsSub p cs

/-- First occurrence split: returns `(before, after)` for the leftmost
occurrence of `sep` in `l`, mirroring how Python `str.split(sep)` scans. -/
def findSep (sep : List Char) : List Char → Option (List Char × List Char)
  | [] => none
  | c :: cs =>
    if (c :: cs).take sep.length = sep then some ([], (c :: cs).drop sep.length)
    else
      match findSep sep cs with
      | some (b, a) => some (c :: b, a)
      | none => none

/-- Fuel-driven worker for Python `str.split(sep)` (`sep` non-empty). -/
def pySplitAux (sep : List Char) : Nat → List Char → List (List Char)
  | 0, l => [l]
  | fuel + 1, l =>
    match findSep sep l with
    | none => [l]
    | some (b, a) => b :: pySplitAux sep fuel a

/-- Python `s.split(sep)` for non-empty separator `sep`. -/
def pySplit (sep l : List Char) : List (List Char) :=
  pySplitAux sep (l.length + 1) l

/-- Python `sep.join(parts)`. -/
def pyJoin (sep : List Char) : List (List Char) → List Char
  | [] => []
  | [c] => c
  | c :: cs => c ++ sep ++ pyJoin sep cs

/-- Python `s.strip()` (whitespace trimmed at both ends). -/
def pyStrip (l : List Char) : List Char :=
  ((l.dropWhile Char.isWhitespace).reverse.dropWhile Char.isWhitespace).reverse

/-- Python `s.split()` with no argument: whitespace-delimited words,
empty fields discarded. -/
def pyWords (l : List Char) : List String :=
  ((l.splitOnP Char.isWhitespace).filter (fun w => w ≠ [])).map List.asString

/-- Python `int(s)`: optional sign and a non-empty run of digits
(surrounding whitespace allowed); `none` models the `ValueError`. -/
def pyParseInt (l : List Char) : Option Int :=
  let t := pyStrip l
  match t with
  | '-' :: ds =>
    if ds ≠ [] ∧ ds.all Char.isDigit then
      some (-(Int.ofNat (ds.foldl (fun n c => n * 10 + (c.toNat - 48)) 0)))
    else none
  | '+' :: ds =>
    if ds ≠ [] ∧ ds.all Char.isDigit then
      some (Int.ofNat (ds.foldl (fun n c => n * 10 + (c.toNat - 48)) 0))
    else none
  | ds =>
    if ds ≠ [] ∧ ds.all Char.isDigit then
      some (Int.ofNat (ds.foldl (fun n c => n * 10 + (c.toNat - 48)) 0))
    else none

/-! ## Task rows (core.database.TaskModel as used by the Local Proxy) -/

/-- One row of the `tasks` table, restricted to the columns the task
lifecycle reads and writes.  Timestamps are `Option Nat` ticks
(`none` = SQL NULL). -/
structure TaskRow where
  task_id : String
  username : String
  target : String
  status : String
  commands : String
  slurm_job_id : Option String
  started_at : Option Nat
  completed_at : Option Nat
  updated_at : Option Nat
  exit_code : Option Int
  deriving Repr, DecidableEq

/-- The three terminal statuses, as the literal list
`['completed', 'failed', 'canceled']` appearing in the source. -/
def terminalStatuses : List String := ["completed", "failed", "canceled"]

namespace TaskService

/-- The separator `' && '` used by `TaskService.create_task` to store the
command list as one string. -/
def sepAnd : List Char := [' ', '&', '&', ' ']

/-- Python `' && '.join(commands)` from `TaskService.create_task`. -/
def joinAnd (commands : List String) : String :=
  (pyJoin sepAnd (commands.map String.data)).asString

/-- Python `command_str.split(' && ')` from
`LocalSlurmService.submit_job` / `RemoteSlurmService.submit_job`. -/
def splitAnd (s : String) : List String :=
  (pySplit sepAnd s.data).map List.asString

/-- `TaskService.create_task` (task_service.py): inserts a fresh row with
`status="pending"` and the command list joined with `' && '`.  The
generated `task_id` and the wall-clock tick are passed explicitly. -/
def create_task (task_id username target : String) (commands : List String) : TaskRow :=
  { task_id := task_id
    username := username
    target := target
    status := "pending"
    commands := joinAnd commands
    slurm_job_id := none
    started_at := none
    completed_at := none
    updated_at := none
    exit_code := none }

/-- `TaskService.update_task_status` (task_service.py lines 106-134).
There is no terminal-state guard in the source: the new status is
assigned unconditionally.  `slurm_job_id` is stored only when truthy
(non-`None` and non-empty); `started_at` is set when entering `running`
with a falsy `started_at`; any terminal status refreshes `completed_at`
and stores `exit_code` when it `is not None`; `updated_at` is always
refreshed.  The calls to `datetime.now()` inside one invocation are
modelled as a single tick `now`. -/
def update_task_status (task : TaskRow) (status : String)
    (slurm_job_id : Option String) (exit_code : Option Int) (now : Nat) : TaskRow :=
  let t1 : TaskRow := { task with status := status }
  let t2 : TaskRow :=
    match slurm_job_id with
    | some s => if s ≠ "" then { t1 with slurm_job_id := some s } else t1
    | none => t1
  let t3 : TaskRow :=
    if status = "running" ∧ t2.started_at = none then
      { t2 with started_at := some now }
    else t2
  let t4 : TaskRow :=
    if status ∈ terminalStatuses then
      let t4a : TaskRow := { t3 with completed_at := some now }
      match exit_code with
      | some c => { t4a with exit_code := some c }
      | none => t4a
    else t3
  { t4 with updated_at := some now }

/-- `TaskService.cancel_task` (task_service.py lines 136-158): sets
`status='canceled'`, `completed_at` and `updated_at` unconditionally. -/
def cancel_task (task : TaskRow) (now : Nat) : TaskRow :=
  { task with status := "canceled", completed_at := some now, updated_at := some now }

end TaskService

/-! ## Subprocess outcomes -/

/-- Result of a completed `subprocess.run` call. -/
structure ProcResult where
  returncode : Int
  stdout : String
  stderr : String
  deriving Repr, DecidableEq

/-- Outcome of spawning a subprocess: normal completion,
`subprocess.TimeoutExpired`, `FileNotFoundError`, or another exception. -/
inductive ProcOutcome where
  | ok (r : ProcResult)
  | timeout
  | fileNotFound
  | exn (msg : String)
  deriving Repr, DecidableEq

/-! ## utils/slurm.py -/

/-- The literal `SLURM_STATE_MAP` dictionary from utils/slurm.py. -/
def SLURM_STATE_MAP : List (String × String) :=
  [("PENDING", "pending"),
   ("RUNNING", "running"),
   ("COMPLETED", "completed"),
   ("FAILED", "failed"),
   ("CANCELLED", "canceled"),
   ("TIMEOUT", "failed"),
   ("NODE_FAIL", "failed"),
   ("PREEMPTED", "failed"),
   ("OUT_OF_MEMORY", "failed")]

/-- `map_slurm_state` (utils/slurm.py lines 284-288):
`base_state = slurm_state.split()[0] if slurm_state else "UNKNOWN"` followed
by `SLURM_STATE_MAP.get(base_state, "unknown")`.  A whitespace-only
non-empty input makes `split()[0]` raise `IndexError`, modelled as
`none`. -/
def map_slurm_state (slurm_state : String) : Option String :=
  if slurm_state = "" then some ((SLURM_STATE_MAP.lookup "UNKNOWN").getD "unknown")
  else
    match pyWords slurm_state.data with
    | [] => none
    | base :: _ => some ((SLURM_STATE_MAP.lookup base).getD "unknown")

/-- The literal pattern prefix of `re.search(r"Submitted batch job (\d+)", ...)`. -/
def patSubmitted : List Char := "Submitted batch job ".data

/-- Leftmost match of `Submitted batch job (\d+)`: the captured digit run,
scanning start positions left to right exactly as `re.search` does. -/
def findJobId : List Char → Option (List Char)
  | [] => none
  | c :: cs =>
    if (c :: cs).take patSubmitted.length = patSubmitted then
      let ds := ((c :: cs).drop patSubmitted.length).takeWhile Char.isDigit
      if ds ≠ [] then some ds else findJobId cs
    else findJobId cs

/-- `re.search(r"Submitted batch job (\d+)", stdout)`, returning the
captured group. -/
def parse_job_id (stdout : String) : Option String :=
  (findJobId stdout.data).map List.asString

/-- `submit_slurm_job` (utils/slurm.py lines 128-168), as a function of the
`sbatch` subprocess outcome.  Returns `(success, job_id_or_error, stdout)`
exactly as the source does on each branch. -/
def submit_slurm_job (o : ProcOutcome) : Bool × String × String :=
  match o with
  | .ok r =>
    if r.returncode = 0 then
      match parse_job_id r.stdout with
      | some jid => (true, jid, r.stdout)
      | none => (false, "无法解析作业ID", r.stdout)
    else (false, r.stderr, r.stdout)
  | .timeout => (false, "提交超时", "")
  | .fileNotFound => (false, "sbatch 命令未找到", "")
  | .exn msg => (false, msg, "")

/-- The `SlurmJobInfo` dataclass from utils/slurm.py. -/
structure SlurmJobInfo where
  job_id : String
  state : String
  exit_code : Option Int
  node : Option String
  start_time : Option String
  end_time : Option String
  deriving Repr, DecidableEq

/-- Builds the `SlurmJobInfo` from one parsed `sacct` line
(utils/slurm.py lines 219-236), fields guarded exactly as in the source. -/
def sacctInfoOfParts (parts : List (List Char)) : SlurmJobInfo :=
  let p2 := parts.getD 2 []
  { job_id := (parts.getD 0 []).asString
    state := (parts.getD 1 []).asString
    exit_code :=
      if 3 ≤ parts.length ∧ containsSub [':'] p2 then
        pyParseInt ((pySplit [':'] p2).headI)
      else none
    node :=
      if 3 < parts.length ∧ parts.getD 3 [] ≠ [] then some ((parts.getD 3 []).asString)
      else none
    start_time :=
      if 4 < parts.length ∧ (parts.getD 4 []).asString ≠ "Unknown" then
        some ((parts.getD 4 []).asString)
      else none
    end_time :=
      if 5 < parts.length ∧ (parts.getD 5 []).asString ≠ "Unknown" then
        some ((parts.getD 5 []).asString)
      else none }

/-- The `for line in lines` loop of `get_slurm_job_status`: skips empty
lines and `.batch`/`.extern` sub-steps, returns the first line that splits
into at least two `|`-separated fields, `none` after the loop. -/
def parseSacctLines : List (List Char) → Option SlurmJobInfo
  | [] => none
  | line :: rest =>
    if line = [] ∨ containsSub ".batch".data line ∨ containsSub ".extern".data line then
      parseSacctLines rest
    else
      let parts := pySplit ['|'] line
      if 2 ≤ parts.length then some (sacctInfoOfParts parts)
      else parseSacctLines rest

/-- Builds the `SlurmJobInfo` from the `squeue` fallback output
(utils/slurm.py lines 203-211). -/
def squeueInfoOfParts (parts : List (List Char)) : SlurmJobInfo :=
  { job_id := (parts.getD 0 []).asString
    state := (parts.getD 1 []).asString
    exit_code := none
    node := if 2 < parts.length then some ((parts.getD 2 []).asString) else none
    start_time := if 3 < parts.length then some ((parts.getD 3 []).asString) else none
    end_time := none }

/-- `get_slurm_job_status` (utils/slurm.py lines 171-248) as a function of
the `sacct` and `squeue` subprocess outcomes.  The second component
records whether the `squeue` fallback was spawned; in the source this
happens exactly on the `result.returncode != 0` branch of the `sacct`
call.  A timeout or exception anywhere (caught at lines 240-248) yields
`none`. -/
def get_slurm_job_status (sacct squeue : ProcOutcome) : Option SlurmJobInfo × Bool :=
  match sacct with
  | .ok r =>
    if r.returncode ≠ 0 then
      match squeue with
      | .ok r2 =>
        if r2.returncode = 0 ∧ pyStrip r2.stdout.data ≠ [] then
          let parts := pySplit ['|'] (pyStrip r2.stdout.data)
          if 2 ≤ parts.length then (some (squeueInfoOfParts parts), true)
          else (none, true)
        else (none, true)
      | _ => (none, true)
    else
      (parseSacctLines (pySplit ['\n'] (pyStrip r.stdout.data)), false)
  | _ => (none, false)

/-- Python `value or default` for an optional string argument. -/
def pyOr (v : Option String) (dflt : String) : String :=
  match v with
  | some s => if s = "" then dflt else s
  | none => dflt

/-- The lines `generate_slurm_script` (utils/slurm.py lines 79-111) puts
into `script_lines` before appending the user commands: shebang,
`#SBATCH` directives (GPU and partition ones conditional), and the banner
block ending with `cd <workdir>`. -/
def scriptHeader (task_id username workdir : String) (gpus cpus : Nat)
    (memory time_limit : String)
    (job_name output_file error_file partition : Option String) : List String :=
  let jn := pyOr job_name ("ailabber_" ++ task_id)
  let outf := pyOr output_file ("slurm_" ++ task_id ++ ".out")
  let errf := pyOr error_file ("slurm_" ++ task_id ++ ".err")
  let head0 :=
    ["#!/bin/bash",
     "#SBATCH --job-name=" ++ jn,
     "#SBATCH --output=" ++ outf,
     "#SBATCH --error=" ++ errf,
     "#SBATCH --time=" ++ time_limit,
     "#SBATCH --cpus-per-task=" ++ toString cpus,
     "#SBATCH --mem=" ++ memory]
  let head1 := if 0 < gpus then head0 ++ ["#SBATCH --gres=gpu:" ++ toString gpus] else head0
  let head2 :=
    match partition with
    | some p => if p ≠ "" then head1 ++ ["#SBATCH --partition=" ++ p] else head1
    | none => head1
  head2 ++
    ["",
     "# 任务信息",
     "echo 'Task ID: " ++ task_id ++ "'",
     "echo 'User: " ++ username ++ "'",
     "echo 'Start Time: '$(date)",
     "echo 'Working Directory: " ++ workdir ++ "'",
     "echo '----------------------------------------'",
     "",
     "# 切换到工作目录",
     "cd " ++ workdir,
     "",
     "# 执行命令"]

/-- The trailer lines `generate_slurm_script` appends after the user
commands (utils/slurm.py lines 118-123). -/
def scriptTrailer (task_id : String) : List String :=
  ["",
   "echo '----------------------------------------'",
   "echo 'End Time: '$(date)",
   "echo 'Task " ++ task_id ++ " finished with exit code: '$?"]

/-- `generate_slurm_script` (utils/slurm.py lines 41-125) as the
`script_lines` list before the final `"\n".join`: header lines, then each
user command as its own line in order, then the trailer. -/
def generate_slurm_script_lines (task_id username workdir : String)
    (commands : List String) (gpus cpus : Nat) (memory time_limit : String)
    (job_name output_file error_file partition : Option String) : List String :=
  scriptHeader task_id username workdir gpus cpus memory time_limit
      job_name output_file error_file partition
    ++ commands ++ scriptTrailer task_id

/-- `generate_slurm_script`: the joined script text. -/
def generate_slurm_script (task_id username workdir : String)
    (commands : List String) (gpus cpus : Nat) (memory time_limit : String)
    (job_name output_file error_file partition : Option String) : String :=
  String.intercalate "\n"
    (generate_slurm_script_lines task_id username workdir commands gpus cpus
      memory time_limit job_name output_file error_file partition)

/-- `cancel_slurm_job` (utils/slurm.py lines 251-281): success exactly on
exit status 0; stderr is the message otherwise. -/
def cancel_slurm_job (o : ProcOutcome) : Bool × String :=
  match o with
  | .ok r =>
    if r.returncode = 0 then (true, "作业已取消")
    else (false, r.stderr)
  | .timeout => (false, "取消操作超时")
  | .fileNotFound => (false, "scancel 命令未找到")
  | .exn msg => (false, msg)

/-! ## FileService (local_proxy/services/file_service.py) -/

namespace FileService

/-- `FileService.rsync_to_remote` (file_service.py lines 89-130): `true`
exactly when the spawned `rsync` exits 0; timeout and exceptions are
caught and yield `false`. -/
def rsync_to_remote (o : ProcOutcome) : Bool :=
  match o with
  | .ok r => r.returncode = 0
  | _ => false

end FileService

/-! ## HTTP routes (local_proxy/routes.py) -/

namespace Routes

/-- The ownership guard appearing in the status/logs/fetch/cancel
handlers: `if username and task.username != username`.  Python truthiness
makes an absent parameter (`None`) and the empty string both skip the
check. -/
def ownership_reject (username : Option String) (owner : String) : Bool :=
  match username with
  | none => false
  | some u => if u = "" then false else decide (owner ≠ u)

/-- The JSON body of a `POST /api/submit` request, restricted to the
fields the handler's control flow inspects.  `none` = key absent. -/
structure SubmitRequest where
  username : Option String
  commands : Option (List String)
  target : Option String
  deriving Repr, DecidableEq

/-- Where the `submit_task` handler goes after validation and task
creation: a 400 rejection (carrying the row committed so far, if any), or
one of the two submission flows, each holding the freshly created
`pending` row. -/
inductive SubmitDispatch where
  | rejected (code : Nat) (row : Option TaskRow)
  | localFlow (row : TaskRow)
  | remoteFlow (row : TaskRow)
  deriving Repr, DecidableEq

/-- Whether a dispatch outcome left a task row in the store. -/
def SubmitDispatch.rowWritten : SubmitDispatch → Bool
  | .rejected _ row => row.isSome
  | .localFlow _ => true
  | .remoteFlow _ => true

/-- The validation-and-creation prefix of `submit_task` (routes.py lines
25-58 and 120-124): missing `username` or `commands` is rejected with 400
before any row exists; otherwise `TaskService.create_task` commits a
`pending` row, and only then is an unrecognized target rejected with
400. -/
def submit_task_dispatch (req : SubmitRequest) (task_id : String) : SubmitDispatch :=
  match req.username, req.commands with
  | some u, some cmds =>
    let target := req.target.getD "local"
    let task := TaskService.create_task task_id u target cmds
    if target = "local" then .localFlow task
    else if target = "remote" then .remoteFlow task
    else .rejected 400 (some task)
  | _, _ => .rejected 400 none

/-- Response of the local branch of `submit_task` (routes.py lines 61-78):
HTTP code, the row after its final `update_task_status`, and the `error`
field of the JSON body (`none` on success). -/
structure SubmitFlowResponse where
  httpCode : Nat
  taskAfter : TaskRow
  errorField : Option String
  deriving Repr, DecidableEq

/-- The local branch of `submit_task`: on submitter success the row is
updated to `running` with the returned job id and 200 is returned; on
failure the row is updated to `failed` and 500 is returned with the
submitter's error string. -/
def submit_task_local (task : TaskRow) (sres : Bool × String × String)
    (now : Nat) : SubmitFlowResponse :=
  if sres.1 then
    { httpCode := 200
      taskAfter := TaskService.update_task_status task "running" (some sres.2.1) none now
      errorField := none }
  else
    { httpCode := 500
      taskAfter := TaskService.update_task_status task "failed" none none now
      errorField := some sres.2.1 }

/-- Response of the remote branch of `submit_task` (routes.py lines
80-119), additionally recording whether the HTTP submit forward to the
Remote Server was reached. -/
structure RemoteFlowResponse where
  httpCode : Nat
  taskAfter : TaskRow
  remoteCalled : Bool
  deriving Repr, DecidableEq

/-- The remote branch of `submit_task`: `copy_to_temp` failure, then
`rsync_to_remote` failure, each fail the task with 500 before the remote
submit is attempted; otherwise the remote submit result decides between
`running`/200 and `failed`/500. -/
def submit_task_remote (task : TaskRow) (copy_ok rsync_ok : Bool)
    (remote : Bool × String × String) (now : Nat) : RemoteFlowResponse :=
  if ¬ copy_ok then
    { httpCode := 500
      taskAfter := TaskService.update_task_status task "failed" none none now
      remoteCalled := false }
  else if ¬ rsync_ok then
    { httpCode := 500
      taskAfter := TaskService.update_task_status task "failed" none none now
      remoteCalled := false }
  else if remote.1 then
    { httpCode := 200
      taskAfter := TaskService.update_task_status task "running" (some remote.2.1) none now
      remoteCalled := true }
  else
    { httpCode := 500
      taskAfter := TaskService.update_task_status task "failed" none none now
      remoteCalled := true }

/-- `GET /api/status/<task_id>` (routes.py lines 198-221): 404 on a
missing task, 403 on the ownership guard, else 200; the row is never
mutated. -/
def get_task_status (task : Option TaskRow) (username : Option String) :
    Nat × Option TaskRow :=
  match task with
  | none => (404, none)
  | some t =>
    if ownership_reject username t.username then (403, some t)
    else (200, some t)

/-- `POST /api/cancel/<task_id>` (routes.py lines 333-377): 404 on a
missing task, 403 on the ownership guard, 400 when the row is already
terminal; otherwise `scancel` (or the remote cancel forward) is issued
best-effort — its outcome `scancel_ok` only produces a log line — and
`TaskService.cancel_task` commits `canceled` with 200. -/
def cancel_task (task : Option TaskRow) (username : Option String)
    (scancel_ok : Bool) (now : Nat) : Nat × Option TaskRow :=
  match task with
  | none => (404, none)
  | some t =>
    if ownership_reject username t.username then (403, some t)
    else if t.status ∈ terminalStatuses then (400, some t)
    else (200, some (TaskService.cancel_task t now))

end Routes

/-! ## Polling (local_proxy/services/polling_service.py) -/

namespace PollingService

/-- `PollingService._poll_local_task` (polling_service.py lines 81-93) for
one already-selected task: when the status query yielded a `SlurmJobInfo`,
the mapped state is committed through `update_task_status` whenever it
differs from the row's current status — including the `unknown` mapping.
A `map_slurm_state` of `none` models the `IndexError` that the per-task
`except` in `_poll_loop` catches, leaving the row unchanged. -/
def poll_local_task (task : TaskRow) (job_info : Option SlurmJobInfo)
    (now : Nat) : TaskRow :=
  match job_info with
  | none => task
  | some info =>
    match map_slurm_state info.state with
    | none => task
    | some new_status =>
      if new_status ≠ task.status then
        TaskService.update_task_status task new_status none info.exit_code now
      else task

end PollingService

/-! ## Side-condition predicates and sample rows used in the theorems -/

/-- Side condition for the command round trip: the command ends with the
three characters of a space followed by two ampersands, so that joining
it with `' && '` creates an occurrence of the separator straddling the
boundary. -/
def endsWithSpAmpAmp (l : List Char) : Bool :=
  decide (l.reverse.take 3 = ['&', '&', ' '])

/-- A sample row sitting in `running`, owned by `alice`. -/
def sampleRunning : TaskRow :=
  { task_id := "T"
    username := "alice"
    target := "local"
    status := "running"
    commands := "echo hi"
    slurm_job_id := some "42"
    started_at := some 1
    completed_at := none
    updated_at := some 1
    exit_code := none }

/-- A sample row in the terminal state `completed`. -/
def sampleCompleted : TaskRow :=
  { sampleRunning with status := "completed", completed_at := some 2, exit_code := some 0 }

/-- A freshly created `pending` row. -/
def samplePending : TaskRow :=
  { task_id := "T2"
    username := "alice"
    target := "local"
    status := "pending"
    commands := "echo hi"
    slurm_job_id := none
    started_at := none
    completed_at := none
    updated_at := none
    exit_code := none }

/-! ## Shared helper lemmas -/

/-- `update_task_status` assigns the requested status on every branch. -/
theorem update_status_sets_status (t : TaskRow) (s : String)
    (j : Option String) (e : Option Int) (now : Nat) :
    (TaskService.update_task_status t s j e now).status = s := by
  unfold TaskService.update_task_status
  rcases j with _ | v <;> rcases e with _ | c <;>
    dsimp only <;> split_ifs <;> rfl

/-! ## C1 -/

/-- C1 counterexample: a row in the terminal state `completed` is moved to
`running` by `update_task_status` — the call is not rejected and the
status does change, so the claimed terminal-state guard does not exist. -/
theorem c1_counterexample :
    (TaskService.update_task_status sampleCompleted "running" none none 5).status
        = "running"
      ∧ sampleCompleted.status ∈ terminalStatuses
      ∧ ("running" : String) ≠ sampleCompleted.status := by
  refine ⟨rfl, by decide, by decide⟩

/-- C1 (amended): `update_task_status` never rejects a transition out of a
terminal state: for every row whose status is terminal and every requested
status, the call assigns the requested status to the row. -/
theorem c1_no_terminal_guard (t : TaskRow) (s : String)
    (j : Option String) (e : Option Int) (now : Nat)
    (hterm : t.status ∈ terminalStatuses) :
    (TaskService.update_task_status t s j e now).status = s :=
  update_status_sets_status t s j e now

/-- C1 witness: the amended theorem applied to the sample completed row. -/
theorem c1_no_terminal_guard_witness :
    sampleCompleted.status ∈ terminalStatuses ∧
    (TaskService.update_task_status sampleCompleted "running" none none 5).status
      = "running" :=
  ⟨by decide, c1_no_terminal_guard sampleCompleted "running" none none 5 (by decide)⟩

/-! ## C4 -/

/-- C4 counterexample: two `update_task_status` calls with identical
arguments but made at different wall-clock ticks do not leave the row
bit-identical — the second call refreshes `updated_at`. -/
theorem c4_counterexample :
    TaskService.update_task_status
        (TaskService.update_task_status samplePending "running" none none 1)
        "running" none none 2
      ≠ TaskService.update_task_status samplePending "running" none none 1 := by
  decide

/-- C4 (amended): a second `update_task_status` call with identical
arguments changes nothing except the always-refreshed timestamps: the
resulting row equals the row after the first call with `updated_at` set to
the second call's clock, and — when the status is terminal — `completed_at`
refreshed likewise.  With equal clock ticks the two rows are
bit-identical. -/
theorem c4_idempotent_up_to_timestamps (t : TaskRow) (s : String)
    (j : Option String) (e : Option Int) (n1 n2 : Nat) :
    TaskService.update_task_status
        (TaskService.update_task_status t s j e n1) s j e n2
      = { TaskService.update_task_status t s j e n1 with
          updated_at := some n2,
          completed_at :=
            if s ∈ terminalStatuses then some n2
            else (TaskService.update_task_status t s j e n1).completed_at } := by
  unfold TaskService.update_task_status
  rcases j with _ | v <;> rcases e with _ | c <;>
    dsimp only <;> split_ifs <;> simp_all

/-! ## C2 -/

/-- C2: the cancel handler rejects (400, row untouched) exactly when the
task is already terminal; otherwise — for either outcome of the
best-effort `scancel`/remote-cancel, over which the statement quantifies —
it succeeds with 200 and unconditionally commits `status = canceled` and
`completed_at = now` through `TaskService.cancel_task`. -/
theorem c2_cancel_semantics (t : TaskRow) (u : Option String)
    (scancel_ok : Bool) (now : Nat)
    (hown : Routes.ownership_reject u t.username = false) :
    (t.status ∈ terminalStatuses →
      Routes.cancel_task (some t) u scancel_ok now = (400, some t)) ∧
    (t.status ∉ terminalStatuses →
      Routes.cancel_task (some t) u scancel_ok now
          = (200, some (TaskService.cancel_task t now))
        ∧ (TaskService.cancel_task t now).status = "canceled"
        ∧ (TaskService.cancel_task t now).completed_at = some now) := by
  constructor <;> intro h <;>
    simp [Routes.cancel_task, TaskService.cancel_task, hown, h]

/-- C2 witness: cancelling the sample running row with a failing scancel
still succeeds and commits `canceled`. -/
theorem c2_cancel_semantics_witness :
    sampleRunning.status ∉ terminalStatuses ∧
    Routes.cancel_task (some sampleRunning) none false 7
        = (200, some (TaskService.cancel_task sampleRunning 7))
      ∧ (TaskService.cancel_task sampleRunning 7).status = "canceled"
      ∧ (TaskService.cancel_task sampleRunning 7).completed_at = some 7 :=
  ⟨by decide,
   (c2_cancel_semantics sampleRunning none false 7 rfl).2 (by decide)⟩

/-! ## C3 -/

/-- C3 counterexample: a running task polled with the unlisted Slurm state
`COMPLETING` is committed to status `unknown` by the Reconciler's
per-task step — the transition is not suppressed, and the resulting status
leaves the five-value set. -/
theorem c3_counterexample :
    (PollingService.poll_local_task sampleRunning
        (some { job_id := "42", state := "COMPLETING", exit_code := none,
                node := none, start_time := none, end_time := none }) 9).status
        = "unknown"
      ∧ "unknown" ∉ ["pending", "running", "completed", "failed", "canceled"] := by
  refine ⟨rfl, by decide⟩

/-- C3 (amended): every Slurm state listed in the mapping table maps to
its specified unified status (a trailing reason is stripped), and any
state whose base token is not listed maps to `unknown`; but the Reconciler
does commit a transition for `unknown`: a pending or running task whose
polled state maps to `unknown` is updated to status `unknown`, so the
status does not remain in the five-value set. -/
theorem c3_state_map_and_poll (s : String) (base : String) (rest : List String)
    (info : SlurmJobInfo) (t : TaskRow) (now : Nat) :
    (map_slurm_state "PENDING" = some "pending"
      ∧ map_slurm_state "RUNNING" = some "running"
      ∧ map_slurm_state "COMPLETED" = some "completed"
      ∧ map_slurm_state "CANCELLED" = some "canceled"
      ∧ map_slurm_state "FAILED" = some "failed"
      ∧ map_slurm_state "TIMEOUT" = some "failed"
      ∧ map_slurm_state "NODE_FAIL" = some "failed"
      ∧ map_slurm_state "PREEMPTED" = some "failed"
      ∧ map_slurm_state "OUT_OF_MEMORY" = some "failed"
      ∧ map_slurm_state "PENDING (Resources)" = some "pending"
      ∧ map_slurm_state "CANCELLED by 1001" = some "canceled") ∧
    (s ≠ "" → pyWords s.data = base :: rest →
      SLURM_STATE_MAP.lookup base = none →
      map_slurm_state s = some "unknown") ∧
    (t.status = "pending" ∨ t.status = "running" →
      map_slurm_state info.state = some "unknown" →
      (PollingService.poll_local_task t (some info) now).status = "unknown") := by
  refine ⟨by decide, ?_, ?_⟩
  · intro hs hw hlook
    simp [map_slurm_state, hs, hw, hlook]
  · intro hst hmap
    have hne : ("unknown" : String) ≠ t.status := by
      rcases hst with h | h <;> rw [h] <;> decide
    simp [PollingService.poll_local_task, hmap, hne,
      update_status_sets_status]

/-- C3 witness: the amended theorem applied to the `COMPLETING` state and
the sample running row. -/
theorem c3_state_map_and_poll_witness :
    map_slurm_state "COMPLETING" = some "unknown" ∧
    (PollingService.poll_local_task sampleRunning
        (some { job_id := "42", state := "COMPLETING", exit_code := none,
                node := none, start_time := none, end_time := none }) 9).status
      = "unknown" :=
  ⟨(c3_state_map_and_poll "COMPLETING" "COMPLETING" []
      { job_id := "42", state := "COMPLETING", exit_code := none,
        node := none, start_time := none, end_time := none } sampleRunning 9).2.1
      (by decide) (by decide) (by decide),
   (c3_state_map_and_poll "COMPLETING" "COMPLETING" []
      { job_id := "42", state := "COMPLETING", exit_code := none,
        node := none, start_time := none, end_time := none } sampleRunning 9).2.2
      (Or.inr rfl)
      ((c3_state_map_and_poll "COMPLETING" "COMPLETING" []
        { job_id := "42", state := "COMPLETING", exit_code := none,
          node := none, start_time := none, end_time := none } sampleRunning 9).2.1
        (by decide) (by decide) (by decide))⟩

/-! ## C5: characterizing the sbatch output pattern -/

/-- Every element kept by `takeWhile p` satisfies `p`. -/
theorem all_takeWhile (p : Char → Bool) (l : List Char) :
    (l.takeWhile p).all p = true := by
  induction l with
  | nil => rfl
  | cons c cs ih =>
    by_cases hc : p c
    · simp [List.takeWhile_cons, hc, ih]
    · simp [List.takeWhile_cons, hc]

/-- When the pattern matches at the head and digits follow, `findJobId`
returns that digit run. -/
theorem findJobId_head (l : List Char)
    (hp : l.take patSubmitted.length = patSubmitted)
    (hd : (l.drop patSubmitted.length).takeWhile Char.isDigit ≠ []) :
    findJobId l = some ((l.drop patSubmitted.length).takeWhile Char.isDigit) := by
  cases l with
  | nil =>
    exfalso
    have hpat : patSubmitted ≠ ([] : List Char) := by decide
    simp at hp
    exact hpat hp
  | cons c cs =>
    unfold findJobId
    rw [if_pos hp, if_pos hd]

/-- A match further right survives prepending one character. -/
theorem findJobId_cons_skip (c : Char) (cs : List Char)
    (h : (findJobId cs).isSome = true) :
    (findJobId (c :: cs)).isSome = true := by
  unfold findJobId
  by_cases hp : (c :: cs).take patSubmitted.length = patSubmitted
  · rw [if_pos hp]
    by_cases hd : ((c :: cs).drop patSubmitted.length).takeWhile Char.isDigit ≠ []
    · rw [if_pos hd]; rfl
    · rw [if_neg hd]; exact h
  · rw [if_neg hp]; exact h

/-- Soundness: a successful scan yields a decomposition of the input
around the literal pattern and a non-empty digit run. -/
theorem findJobId_some (l : List Char) (h : (findJobId l).isSome = true) :
    ∃ pre ds post, l = pre ++ patSubmitted ++ ds ++ post ∧
      ds ≠ [] ∧ ds.all Char.isDigit = true := by
  induction l with
  | nil => simp [findJobId] at h
  | cons c cs ih =>
    rw [findJobId] at h
    by_cases hp : (c :: cs).take patSubmitted.length = patSubmitted
    · rw [if_pos hp] at h
      by_cases hd : ((c :: cs).drop patSubmitted.length).takeWhile Char.isDigit ≠ []
      · refine ⟨[], ((c :: cs).drop patSubmitted.length).takeWhile Char.isDigit,
          ((c :: cs).drop patSubmitted.length).dropWhile Char.isDigit, ?_, hd, ?_⟩
        · conv_lhs => rw [← List.take_append_drop patSubmitted.length (c :: cs)]
          rw [hp]
          simp only [List.nil_append, List.append_assoc,
            List.takeWhile_append_dropWhile]
        · exact all_takeWhile Char.isDigit _
      · rw [if_neg hd] at h
        obtain ⟨pre, ds, post, heq, hne, hall⟩ := ih h
        exact ⟨c :: pre, ds, post, by simp [heq], hne, hall⟩
    · rw [if_neg hp] at h
      obtain ⟨pre, ds, post, heq, hne, hall⟩ := ih h
      exact ⟨c :: pre, ds, post, by simp [heq], hne, hall⟩

/-- Completeness: any decomposition around the pattern with a non-empty
digit run makes the scan succeed. -/
theorem findJobId_of_decomp (pre ds post : List Char) (hne : ds ≠ [])
    (hall : ds.all Char.isDigit = true) :
    (findJobId (pre ++ patSubmitted ++ ds ++ post)).isSome = true := by
  induction pre with
  | nil =>
    have hp : ((patSubmitted ++ ds ++ post) : List Char).take patSubmitted.length
        = patSubmitted := by
      rw [List.append_assoc, List.take_left]
    have hdrop : ((patSubmitted ++ ds ++ post) : List Char).drop patSubmitted.length
        = ds ++ post := by
      rw [List.append_assoc, List.drop_left]
    have hd : (((patSubmitted ++ ds ++ post) : List Char).drop
        patSubmitted.length).takeWhile Char.isDigit ≠ [] := by
      rw [hdrop]
      cases ds with
      | nil => exact absurd rfl hne
      | cons d ds2 =>
        have hdig : d.isDigit = true := by
          simp [List.all_cons] at hall
          exact hall.1
        simp [List.takeWhile_cons, hdig]
    rw [List.nil_append, findJobId_head _ hp hd]
    rfl
  | cons c pre2 ih =>
    exact findJobId_cons_skip c _ ih

/-- C5: `submit_slurm_job` succeeds exactly when `sbatch` exited 0 and its
stdout contains `Submitted batch job` followed by a non-empty digit run;
on success the captured digits are returned as the job id; on any failure
the submit handler's local branch marks the task `failed`, responds 500,
and surfaces the reason in the JSON body's `error` field. -/
theorem c5_sbatch_contract (o : ProcOutcome) (t : TaskRow) (now : Nat) :
    ((submit_slurm_job o).1 = true ↔
      ∃ r, o = .ok r ∧ r.returncode = 0 ∧
        ∃ pre ds post, r.stdout.data = pre ++ patSubmitted ++ ds ++ post ∧
          ds ≠ [] ∧ ds.all Char.isDigit = true) ∧
    (∀ r jid, o = .ok r → r.returncode = 0 →
      parse_job_id r.stdout = some jid →
      submit_slurm_job o = (true, jid, r.stdout)) ∧
    ((submit_slurm_job o).1 = false →
      (Routes.submit_task_local t (submit_slurm_job o) now).httpCode = 500
        ∧ (Routes.submit_task_local t (submit_slurm_job o) now).taskAfter.status
            = "failed"
        ∧ (Routes.submit_task_local t (submit_slurm_job o) now).errorField
            = some (submit_slurm_job o).2.1) := by
  refine ⟨?_, ?_, ?_⟩
  · constructor
    · intro h
      match o with
      | .ok r =>
        by_cases hrc : r.returncode = 0
        · cases hpj : parse_job_id r.stdout with
          | none => simp [submit_slurm_job, hrc, hpj] at h
          | some jid =>
            have hsome : (findJobId r.stdout.data).isSome = true := by
              unfold parse_job_id at hpj
              cases hfj : findJobId r.stdout.data with
              | none => rw [hfj] at hpj; simp at hpj
              | some ds => rfl
            obtain ⟨pre, ds, post, heq, hne, hall⟩ := findJobId_some _ hsome
            exact ⟨r, rfl, hrc, pre, ds, post, heq, hne, hall⟩
        · simp [submit_slurm_job, hrc] at h
      | .timeout => simp [submit_slurm_job] at h
      | .fileNotFound => simp [submit_slurm_job] at h
      | .exn m => simp [submit_slurm_job] at h
    · rintro ⟨r, rfl, hrc, pre, ds, post, heq, hne, hall⟩
      have hsome : (findJobId r.stdout.data).isSome = true := by
        rw [heq]; exact findJobId_of_decomp pre ds post hne hall
      cases hfj : findJobId r.stdout.data with
      | none => rw [hfj] at hsome; simp at hsome
      | some digits =>
        simp [submit_slurm_job, hrc, parse_job_id, hfj]
  · rintro r jid rfl hrc hpj
    simp [submit_slurm_job, hrc, hpj]
  · intro h
    refine ⟨?_, ?_, ?_⟩ <;>
      simp [Routes.submit_task_local, h, update_status_sets_status]

/-- C5 witness: a concrete successful `sbatch` run returns job id `42`,
and a timed-out run produces the failed-task 500 response. -/
theorem c5_sbatch_contract_witness :
    submit_slurm_job (.ok ⟨0, "Submitted batch job 42\n", ""⟩)
        = (true, "42", "Submitted batch job 42\n") ∧
    (Routes.submit_task_local samplePending (submit_slurm_job .timeout) 3).httpCode
        = 500 ∧
    (Routes.submit_task_local samplePending
        (submit_slurm_job .timeout) 3).taskAfter.status = "failed" :=
  ⟨(c5_sbatch_contract (.ok ⟨0, "Submitted batch job 42\n", ""⟩) samplePending 3).2.1
      ⟨0, "Submitted batch job 42\n", ""⟩ "42" rfl rfl (by decide),
   ((c5_sbatch_contract .timeout samplePending 3).2.2 rfl).1,
   ((c5_sbatch_contract .timeout samplePending 3).2.2 rfl).2.1⟩

/-! ## C6 -/

/-- C6: when the rsync push exits non-zero, times out, or raises,
`rsync_to_remote` reports failure and the remote branch of the submit
handler marks the task `failed`, responds 500, and never reaches the HTTP
submit forward to the Remote Server. -/
theorem c6_rsync_failure (t : TaskRow) (ro : ProcOutcome)
    (remote : Bool × String × String) (now : Nat)
    (h : (∃ r, ro = .ok r ∧ r.returncode ≠ 0) ∨ ro = .timeout ∨ ∃ m, ro = .exn m) :
    FileService.rsync_to_remote ro = false
      ∧ (Routes.submit_task_remote t true (FileService.rsync_to_remote ro)
          remote now).httpCode = 500
      ∧ (Routes.submit_task_remote t true (FileService.rsync_to_remote ro)
          remote now).taskAfter.status = "failed"
      ∧ (Routes.submit_task_remote t true (FileService.rsync_to_remote ro)
          remote now).remoteCalled = false := by
  have hf : FileService.rsync_to_remote ro = false := by
    rcases h with ⟨r, rfl, hrc⟩ | rfl | ⟨m, rfl⟩
    · simp [FileService.rsync_to_remote, hrc]
    · rfl
    · rfl
  refine ⟨hf, ?_, ?_, ?_⟩ <;>
    simp [Routes.submit_task_remote, hf, update_status_sets_status]

/-- C6 witness: the rsync stub exiting 23 (the spec's scenario) produces
the failed row, the 500 response, and no remote submit call. -/
theorem c6_rsync_failure_witness :
    FileService.rsync_to_remote (.ok ⟨23, "", "rsync error"⟩) = false
      ∧ (Routes.submit_task_remote samplePending true
          (FileService.rsync_to_remote (.ok ⟨23, "", "rsync error"⟩))
          (false, "", "") 4).httpCode = 500
      ∧ (Routes.submit_task_remote samplePending true
          (FileService.rsync_to_remote (.ok ⟨23, "", "rsync error"⟩))
          (false, "", "") 4).taskAfter.status = "failed"
      ∧ (Routes.submit_task_remote samplePending true
          (FileService.rsync_to_remote (.ok ⟨23, "", "rsync error"⟩))
          (false, "", "") 4).remoteCalled = false :=
  c6_rsync_failure samplePending (.ok ⟨23, "", "rsync error"⟩) (false, "", "") 4
    (Or.inl ⟨⟨23, "", "rsync error"⟩, rfl, by decide⟩)

/-! ## C7 -/

/-- C7 counterexample: a submit request with an unrecognized target is
rejected with 400, yet a `pending` task row has already been committed by
`create_task` — contradicting that no row is written on a 400. -/
theorem c7_counterexample :
    Routes.submit_task_dispatch ⟨some "alice", some ["echo hi"], some "typo"⟩ "t1"
        = .rejected 400 (some (TaskService.create_task "t1" "alice" "typo" ["echo hi"]))
      ∧ (Routes.submit_task_dispatch
          ⟨some "alice", some ["echo hi"], some "typo"⟩ "t1").rowWritten = true
      ∧ (TaskService.create_task "t1" "alice" "typo" ["echo hi"]).status = "pending" :=
  ⟨rfl, rfl, rfl⟩

/-- C7 (amended): a request missing `username` or `commands` is rejected
with 400 before any row is written; but an unrecognized target value is
rejected with 400 only after `create_task` has committed a `pending`
row. -/
theorem c7_validation_vs_row (req : Routes.SubmitRequest) (tid : String) :
    ((req.username = none ∨ req.commands = none) →
      Routes.submit_task_dispatch req tid = .rejected 400 none
        ∧ (Routes.submit_task_dispatch req tid).rowWritten = false) ∧
    (∀ u cmds tgt, req.username = some u → req.commands = some cmds →
      req.target = some tgt → tgt ≠ "local" → tgt ≠ "remote" →
      Routes.submit_task_dispatch req tid
          = .rejected 400 (some (TaskService.create_task tid u tgt cmds))
        ∧ (Routes.submit_task_dispatch req tid).rowWritten = true
        ∧ (TaskService.create_task tid u tgt cmds).status = "pending") := by
  obtain ⟨un, cmds, tgt⟩ := req
  constructor
  · rintro (h | h) <;> simp only at h <;> subst h
    · cases cmds <;> exact ⟨rfl, rfl⟩
    · cases un <;> exact ⟨rfl, rfl⟩
  · rintro u c tg hu hc ht h1 h2
    simp only at hu hc ht
    subst hu; subst hc; subst ht
    refine ⟨?_, ?_, rfl⟩ <;>
      simp [Routes.submit_task_dispatch, Routes.SubmitDispatch.rowWritten, h1, h2]

/-- C7 witness: the amended theorem applied to a request without commands
and to the unknown-target request. -/
theorem c7_validation_vs_row_witness :
    Routes.submit_task_dispatch ⟨some "alice", none, none⟩ "t0"
        = .rejected 400 none
      ∧ Routes.submit_task_dispatch ⟨some "alice", some ["echo hi"], some "typo"⟩ "t2"
          = .rejected 400 (some (TaskService.create_task "t2" "alice" "typo" ["echo hi"])) :=
  ⟨((c7_validation_vs_row ⟨some "alice", none, none⟩ "t0").1 (Or.inr rfl)).1,
   ((c7_validation_vs_row ⟨some "alice", some ["echo hi"], some "typo"⟩ "t2").2
      "alice" ["echo hi"] "typo" rfl rfl rfl (by decide) (by decide)).1⟩

/-! ## C8 -/

/-- C8 counterexample: `sacct` exits 0 with no rows — the state query
returns no information and never spawns `squeue` (flag `false`), even
though the very same `squeue` output would have been parsed on the
non-zero-exit path (second conjunct). -/
theorem c8_counterexample :
    get_slurm_job_status (.ok ⟨0, "", ""⟩)
        (.ok ⟨0, "42|RUNNING|node1|2024-01-01T00:00:00", ""⟩)
      = (none, false)
    ∧ get_slurm_job_status (.ok ⟨1, "", ""⟩)
        (.ok ⟨0, "42|RUNNING|node1|2024-01-01T00:00:00", ""⟩)
      = (some { job_id := "42", state := "RUNNING", exit_code := none,
                node := some "node1", start_time := some "2024-01-01T00:00:00",
                end_time := none }, true) := by
  refine ⟨by decide, by decide⟩

/-- C8 (amended): the `squeue` fallback is spawned exactly when `sacct`
exits non-zero; when `sacct` exits 0 with no rows (stdout stripping to
empty), the query reports no information without any fallback. -/
theorem c8_fallback_on_nonzero_exit (sacct squeue : ProcOutcome) :
    ((get_slurm_job_status sacct squeue).2 = true ↔
      ∃ r, sacct = .ok r ∧ r.returncode ≠ 0) ∧
    (∀ r, sacct = .ok r → r.returncode = 0 → pyStrip r.stdout.data = [] →
      get_slurm_job_status sacct squeue = (none, false)) := by
  constructor
  · constructor
    · intro h
      match sacct with
      | .ok r =>
        by_cases hrc : r.returncode = 0
        · exfalso
          revert h
          simp [get_slurm_job_status, hrc]
        · exact ⟨r, rfl, hrc⟩
      | .timeout => simp [get_slurm_job_status] at h
      | .fileNotFound => simp [get_slurm_job_status] at h
      | .exn m => simp [get_slurm_job_status] at h
    · rintro ⟨r, rfl, hrc⟩
      rcases squeue with r2 | _ | _ | m <;>
        simp [get_slurm_job_status, hrc] <;> split_ifs <;> rfl
  · rintro r rfl hrc hstrip
    simp [get_slurm_job_status, hrc, hstrip]
    rfl

/-- C8 witness: the amended theorem applied to a non-zero sacct exit
(fallback taken) and to the zero-exit empty-output case. -/
theorem c8_fallback_on_nonzero_exit_witness :
    (get_slurm_job_status (.ok ⟨1, "", ""⟩) .timeout).2 = true
      ∧ get_slurm_job_status (.ok ⟨0, "  ", ""⟩) .timeout = (none, false) :=
  ⟨(c8_fallback_on_nonzero_exit (.ok ⟨1, "", ""⟩) .timeout).1.mpr
      ⟨⟨1, "", ""⟩, rfl, by decide⟩,
   (c8_fallback_on_nonzero_exit (.ok ⟨0, "  ", ""⟩) .timeout).2
      ⟨0, "  ", ""⟩ rfl rfl (by decide)⟩

/-! ## C10 -/

/-- C10 counterexample: the empty string is a supplied `username` query
value (`?username=`) that differs from the row's owner, yet the handler
returns 200 rather than 403 — Python truthiness skips the ownership check
for it. -/
theorem c10_counterexample :
    Routes.get_task_status (some sampleRunning) (some "")
        = (200, some sampleRunning)
      ∧ ("" : String) ≠ sampleRunning.username := by
  refine ⟨by decide, by decide⟩

/-- C10 (amended): for an existing task, the status and cancel handlers
return 403 exactly when a non-empty `username` is supplied that differs
from the row's owner; in that case the row is returned unchanged; an
omitted username skips the ownership check entirely. -/
theorem c10_ownership_403_iff (t : TaskRow) (u : Option String)
    (sc : Bool) (now : Nat) :
    ((Routes.get_task_status (some t) u).1 = 403 ↔
      ∃ s, u = some s ∧ s ≠ "" ∧ t.username ≠ s) ∧
    ((Routes.cancel_task (some t) u sc now).1 = 403 ↔
      ∃ s, u = some s ∧ s ≠ "" ∧ t.username ≠ s) ∧
    ((Routes.get_task_status (some t) u).1 = 403 →
      (Routes.get_task_status (some t) u).2 = some t) ∧
    ((Routes.cancel_task (some t) u sc now).1 = 403 →
      (Routes.cancel_task (some t) u sc now).2 = some t) ∧
    (u = none → (Routes.get_task_status (some t) u).1 = 200) := by
  have hrej : Routes.ownership_reject u t.username = true ↔
      ∃ s, u = some s ∧ s ≠ "" ∧ t.username ≠ s := by
    cases u with
    | none => simp [Routes.ownership_reject]
    | some s =>
      by_cases hs : s = "" <;> simp [Routes.ownership_reject, hs]
  cases hb : Routes.ownership_reject u t.username with
  | true =>
    refine ⟨?_, ?_, ?_, ?_, ?_⟩
    · simp only [Routes.get_task_status, hb, if_true]
      simpa using hrej.mp hb
    · simp only [Routes.cancel_task, hb, if_true]
      simpa using hrej.mp hb
    · simp [Routes.get_task_status, hb]
    · simp [Routes.cancel_task, hb]
    · intro hu
      rw [hu] at hb
      simp [Routes.ownership_reject] at hb
  | false =>
    have hnex : ¬ ∃ s, u = some s ∧ s ≠ "" ∧ t.username ≠ s := by
      rw [← hrej, hb]
      simp
    refine ⟨?_, ?_, ?_, ?_, ?_⟩
    · simp only [Routes.get_task_status, hb, if_false]
      simpa using hnex
    · simp only [Routes.cancel_task, hb, if_false]
      constructor
      · intro h
        exfalso
        revert h
        split_ifs <;> simp_all
      · intro h
        exact absurd h hnex
    · simp [Routes.get_task_status, hb]
    · simp only [Routes.cancel_task, hb, if_false]
      split_ifs <;> simp
    · intro hu
      simp [Routes.get_task_status, hb]

/-- C10 witness: the spec's ownership scenario — a task owned by `alice`
queried with `username=bob` — returns 403. -/
theorem c10_ownership_403_iff_witness :
    (Routes.get_task_status (some sampleRunning) (some "bob")).1 = 403 :=
  (c10_ownership_403_iff sampleRunning (some "bob") false 0).1.mpr
    ⟨"bob", rfl, by decide, by decide⟩

/-! ## C9: the command join/split round trip -/

/-- A string with no occurrence of `sep` yields no split point. -/
theorem findSep_none_of_not_contains (sep l : List Char)
    (h : containsSub sep l = false) : findSep sep l = none := by
  induction l with
  | nil => rfl
  | cons c cs ih =>
    rw [containsSub] at h
    by_cases hp : (c :: cs).take sep.length = sep
    · rw [if_pos hp] at h
      exact absurd h (by simp)
    · rw [if_neg hp] at h
      simp only [findSep, if_neg hp, ih h]

/-- A successful split decomposes the input around the separator. -/
theorem findSep_eq_append (sep l : List Char) :
    ∀ b a, findSep sep l = some (b, a) → l = b ++ sep ++ a := by
  induction l with
  | nil => intro b a h; simp [findSep] at h
  | cons c cs ih =>
    intro b a h
    simp only [findSep] at h
    by_cases hp : (c :: cs).take sep.length = sep
    · rw [if_pos hp] at h
      simp only [Option.some.injEq, Prod.mk.injEq] at h
      obtain ⟨hb, ha⟩ := h
      subst hb; subst ha
      conv_lhs => rw [← List.take_append_drop sep.length (c :: cs)]
      rw [hp]
      simp
    · rw [if_neg hp] at h
      cases hf : findSep sep cs with
      | none => rw [hf] at h; simp at h
      | some ba =>
        obtain ⟨b2, a2⟩ := ba
        rw [hf] at h
        simp only [Option.some.injEq, Prod.mk.injEq] at h
        obtain ⟨hb, ha⟩ := h
        subst hb; subst ha
        have hcs := ih b2 a2 hf
        simp [hcs]

/-- The straddle side condition is inherited by the tail. -/
theorem endsWith_cons_false (c : Char) (cs : List Char)
    (h : endsWithSpAmpAmp (c :: cs) = false) : endsWithSpAmpAmp cs = false := by
  by_contra hcs
  have htrue : endsWithSpAmpAmp cs = true := by
    cases hh : endsWithSpAmpAmp cs
    · exact absurd hh hcs
    · rfl
  unfold endsWithSpAmpAmp at htrue h
  rw [decide_eq_true_eq] at htrue
  have hlen : 3 ≤ cs.reverse.length := by
    rw [List.length_reverse]
    have hl := congrArg List.length htrue
    rw [List.length_take, List.length_reverse] at hl
    simp at hl
    omega
  have hc : (c :: cs).reverse.take 3 = ['&', '&', ' '] := by
    rw [List.reverse_cons, List.take_append_of_le_length hlen, htrue]
  rw [hc] at h
  simp at h

/-- When a command neither contains the separator nor ends with a space
and two ampersands, the first separator occurrence in `command ++ sep` is
exactly at the boundary. -/
theorem findSep_boundary (c : List Char)
    (h1 : containsSub TaskService.sepAnd c = false)
    (h2 : endsWithSpAmpAmp c = false) :
    findSep TaskService.sepAnd (c ++ TaskService.sepAnd) = some (c, []) := by
  induction c with
  | nil => decide
  | cons ch cs ih =>
    have h1x : containsSub TaskService.sepAnd cs = false := by
      rw [containsSub] at h1
      by_cases hp : (ch :: cs).take TaskService.sepAnd.length = TaskService.sepAnd
      · rw [if_pos hp] at h1
        exact absurd h1 (by simp)
      · rwa [if_neg hp] at h1
    have h2x : endsWithSpAmpAmp cs = false := endsWith_cons_false ch cs h2
    have hnp : ¬ ((ch :: (cs ++ TaskService.sepAnd)).take TaskService.sepAnd.length
        = TaskService.sepAnd) := by
      intro hq
      rcases cs with _ | ⟨a, _ | ⟨b, _ | ⟨d, tl⟩⟩⟩
      · simp [TaskService.sepAnd] at hq
      · simp [TaskService.sepAnd] at hq
      · simp [TaskService.sepAnd] at hq
        obtain ⟨hch, ha, hb⟩ := hq
        subst hch; subst ha; subst hb
        simp [endsWithSpAmpAmp] at h2
      · have hq2 : (ch :: a :: b :: d :: tl).take TaskService.sepAnd.length
            = TaskService.sepAnd := by
          simp [TaskService.sepAnd] at hq ⊢
          exact hq
        rw [containsSub, if_pos hq2] at h1
        exact absurd h1 (by simp)
    have hstep := ih h1x h2x
    simp only [List.cons_append, findSep, List.append_eq, if_neg hnp, hstep]

/-- A boundary-first occurrence is unaffected by whatever follows the
separator. -/
theorem findSep_boundary_rest (c rest : List Char)
    (hpos : findSep TaskService.sepAnd (c ++ TaskService.sepAnd) = some (c, [])) :
    findSep TaskService.sepAnd (c ++ TaskService.sepAnd ++ rest) = some (c, rest) := by
  induction c with
  | nil =>
    have hp : ((TaskService.sepAnd ++ rest) : List Char).take TaskService.sepAnd.length
        = TaskService.sepAnd := List.take_left TaskService.sepAnd rest
    have hcons : ∃ x xs, TaskService.sepAnd ++ rest = x :: xs := ⟨' ', _, rfl⟩
    obtain ⟨x, xs, hx⟩ := hcons
    simp only [List.nil_append] at hp ⊢
    rw [hx] at hp ⊢
    simp only [findSep, if_pos hp]
    rw [← hx, List.drop_left]
  | cons ch cs ih =>
    have hnp : ¬ ((ch :: (cs ++ TaskService.sepAnd)).take TaskService.sepAnd.length
        = TaskService.sepAnd) := by
      intro hq
      rw [List.cons_append, findSep, if_pos hq] at hpos
      simp at hpos
    have hf : findSep TaskService.sepAnd (cs ++ TaskService.sepAnd) = some (cs, []) := by
      rw [List.cons_append, findSep, if_neg hnp] at hpos
      cases hx : findSep TaskService.sepAnd (cs ++ TaskService.sepAnd) with
      | none => rw [hx] at hpos; simp at hpos
      | some ba =>
        obtain ⟨b2, a2⟩ := ba
        rw [hx] at hpos
        simp only [Option.some.injEq, Prod.mk.injEq] at hpos
        obtain ⟨hb, ha⟩ := hpos
        have hb2 : b2 = cs := by injection hb
        rw [hb2, ha]
    have hnp2 : ¬ ((ch :: (cs ++ TaskService.sepAnd ++ rest)).take
        TaskService.sepAnd.length = TaskService.sepAnd) := by
      intro hq
      apply hnp
      have hle : TaskService.sepAnd.length ≤ (ch :: (cs ++ TaskService.sepAnd)).length := by
        simp only [TaskService.sepAnd, List.length_cons, List.length_nil,
          List.length_append]
        omega
      have hq2 : ((ch :: (cs ++ TaskService.sepAnd)) ++ rest).take
          TaskService.sepAnd.length = TaskService.sepAnd := hq
      rw [List.take_append_of_le_length hle] at hq2
      exact hq2
    simp only [List.cons_append, findSep, List.append_eq, if_neg hnp2, ih hf]

/-- A successful split strictly shrinks the remainder (non-empty
separator). -/
theorem findSep_shrinks (sep l b a : List Char) (hsep : sep ≠ [])
    (h : findSep sep l = some (b, a)) : a.length < l.length := by
  have hl := findSep_eq_append sep l b a h
  rw [hl]
  simp only [List.length_append]
  have : 0 < sep.length := List.length_pos.mpr hsep
  omega

/-- `pySplitAux` is fuel-irrelevant above the input length. -/
theorem pySplitAux_fuel (sep : List Char) (hsep : sep ≠ []) :
    ∀ f1 f2 l, l.length < f1 → l.length < f2 →
      pySplitAux sep f1 l = pySplitAux sep f2 l := by
  intro f1
  induction f1 with
  | zero => intro f2 l h1; omega
  | succ g1 ihg =>
    intro f2 l h1 h2
    cases f2 with
    | zero => omega
    | succ g2 =>
      simp only [pySplitAux]
      cases hf : findSep sep l with
      | none => rfl
      | some ba =>
        obtain ⟨b, a⟩ := ba
        have hlt := findSep_shrinks sep l b a hsep hf
        have ha1 : a.length < g1 := by omega
        have ha2 : a.length < g2 := by omega
        show b :: pySplitAux sep g1 a = b :: pySplitAux sep g2 a
        rw [ihg g2 a ha1 ha2]

/-- Core round trip: splitting the `' && '`-join of a non-empty command
list recovers the list, provided no command contains the separator or
ends with a space and two ampersands. -/
theorem pySplit_pyJoin (cmds : List (List Char)) (hne : cmds ≠ [])
    (hok : ∀ c ∈ cmds, containsSub TaskService.sepAnd c = false ∧
      endsWithSpAmpAmp c = false) :
    pySplit TaskService.sepAnd (pyJoin TaskService.sepAnd cmds) = cmds := by
  induction cmds with
  | nil => exact absurd rfl hne
  | cons c cs ih =>
    obtain ⟨hc1, hc2⟩ := hok c (List.mem_cons_self c cs)
    cases cs with
    | nil =>
      have hfs : findSep TaskService.sepAnd c = none :=
        findSep_none_of_not_contains TaskService.sepAnd c hc1
      simp only [pyJoin, pySplit, pySplitAux, hfs]
    | cons c2 cs2 =>
      have hok2 : ∀ x ∈ c2 :: cs2, containsSub TaskService.sepAnd x = false ∧
          endsWithSpAmpAmp x = false := by
        intro x hx
        exact hok x (List.mem_cons_of_mem c hx)
      have hih := ih (by simp) hok2
      have hjoin : pyJoin TaskService.sepAnd (c :: c2 :: cs2)
          = c ++ TaskService.sepAnd ++ pyJoin TaskService.sepAnd (c2 :: cs2) := rfl
      have hfs : findSep TaskService.sepAnd
          (c ++ TaskService.sepAnd ++ pyJoin TaskService.sepAnd (c2 :: cs2))
          = some (c, pyJoin TaskService.sepAnd (c2 :: cs2)) :=
        findSep_boundary_rest c _ (findSep_boundary c hc1 hc2)
      have hlen : (pyJoin TaskService.sepAnd (c2 :: cs2)).length
          < (c ++ TaskService.sepAnd ++ pyJoin TaskService.sepAnd (c2 :: cs2)).length := by
        simp only [TaskService.sepAnd, List.length_append, List.length_cons,
          List.length_nil]
        omega
      rw [hjoin]
      show pySplitAux TaskService.sepAnd
          ((c ++ TaskService.sepAnd ++ pyJoin TaskService.sepAnd (c2 :: cs2)).length + 1)
          (c ++ TaskService.sepAnd ++ pyJoin TaskService.sepAnd (c2 :: cs2))
        = c :: c2 :: cs2
      rw [pySplitAux, hfs]
      have hfuel := pySplitAux_fuel TaskService.sepAnd (by decide)
        ((c ++ TaskService.sepAnd ++ pyJoin TaskService.sepAnd (c2 :: cs2)).length)
        ((pyJoin TaskService.sepAnd (c2 :: cs2)).length + 1)
        (pyJoin TaskService.sepAnd (c2 :: cs2)) hlen (by omega)
      show c :: pySplitAux TaskService.sepAnd
          (c ++ TaskService.sepAnd ++ pyJoin TaskService.sepAnd (c2 :: cs2)).length
          (pyJoin TaskService.sepAnd (c2 :: cs2))
        = c :: c2 :: cs2
      rw [hfuel]
      exact congrArg (List.cons c) hih

/-- C9 counterexample: a single command with an embedded `' && '` does not
survive the round trip — the stored string splits back into two commands,
so the claimed equivalence fails for embedded `&&`. -/
theorem c9_counterexample :
    TaskService.splitAnd (TaskService.joinAnd ["echo a && echo b"])
        = ["echo a", "echo b"]
      ∧ (["echo a", "echo b"] : List String) ≠ ["echo a && echo b"] := by
  refine ⟨by decide, by decide⟩

/-- C9 (amended): the Task Store stores the commands joined with `' && '`
and the submitters split that string back on `' && '`; the round trip
recovers the original list for every non-empty command list in which no
command contains the substring `' && '` or ends with a space and two
ampersands (commands containing `;`, `||`, or unspaced `&&` are preserved
verbatim), and the generated batch script always consists of the header,
then each command line from the task in order unmodified, then the
trailer. -/
theorem c9_roundtrip (cmds : List String) (hne : cmds ≠ [])
    (hok : ∀ c ∈ cmds, containsSub TaskService.sepAnd c.data = false ∧
      endsWithSpAmpAmp c.data = false) :
    TaskService.splitAnd (TaskService.joinAnd cmds) = cmds ∧
    (∀ tid un wd gp cp mem tl jn outf errf pt,
      generate_slurm_script_lines tid un wd cmds gp cp mem tl jn outf errf pt
        = scriptHeader tid un wd gp cp mem tl jn outf errf pt
            ++ cmds ++ scriptTrailer tid) := by
  constructor
  · unfold TaskService.splitAnd TaskService.joinAnd
    have hmap : (cmds.map String.data) ≠ [] := by
      intro h
      exact hne (List.map_eq_nil_iff.mp h)
    have hokl : ∀ c ∈ cmds.map String.data,
        containsSub TaskService.sepAnd c = false ∧ endsWithSpAmpAmp c = false := by
      intro c hc
      obtain ⟨s, hs, rfl⟩ := List.mem_map.mp hc
      exact hok s hs
    have hcore := pySplit_pyJoin (cmds.map String.data) hmap hokl
    rw [show ((pyJoin TaskService.sepAnd (cmds.map String.data)).asString).data
        = pyJoin TaskService.sepAnd (cmds.map String.data) from rfl]
    rw [hcore, List.map_map]
    have hid : (List.asString ∘ String.data) = id := by
      funext s
      rfl
    rw [hid, List.map_id]
  · intro tid un wd gp cp mem tl jn outf errf pt
    rfl

/-- C9 witness: a command list with `;` and `||` round-trips unchanged. -/
theorem c9_roundtrip_witness :
    TaskService.splitAnd
        (TaskService.joinAnd ["echo hi", "python train.py; echo done", "ls || true"])
      = ["echo hi", "python train.py; echo done", "ls || true"] :=
  (c9_roundtrip ["echo hi", "python train.py; echo done", "ls || true"]
    (by decide) (by decide)).1

end Ailabber
